import Mathlib

/-!
Shallow embedding of `src/python/projection_models/gp_projection.py`
(class `GaussianProcessProjection`, helper `make_lag_features`, and the
convenience driver `project_with_autoregression`).

Modelling conventions:
* A Python float cell is `Val := Option ℚ`: `none` stands for NaN, `some x`
  for a finite numeric value.  The bookkeeping code under verification never
  turns a finite value into NaN by arithmetic, so NaN only enters through
  the explicit `np.nan` placeholders and through pandas `reindex` filling
  missing columns, both of which are modelled explicitly.
* pandas objects are modelled structurally: a `DataFrame` is a column-name
  list, a row-major value matrix and a row index (index labels as `Int`);
  an input `Series` keeps its index, `Option ℚ` values and optional name;
  prediction output is `SeriesQ` with plain rational values.
* The external sklearn collaborators (`StandardScaler` parameter
  estimation, `GaussianProcessRegressor` kernel fitting) are abstracted
  into an `Externals` record of functions; kernel configuration
  (`kernel`, `alpha`, `n_restarts_optimizer`) only parameterises
  `Externals.gprFit` and is absorbed into it.  A fitted regressor predicts
  row-wise (Gaussian-process predictions of distinct query points are
  independent) and may fail — sklearn raises on invalid input, e.g. NaN —
  which `Except Unit` captures.
* Python exceptions become the `Err` inductive, one constructor per
  `raise` site of the source, plus `externalErr` for any error raised
  inside the sklearn collaborators.
* Python `int` arguments `lags` and `n_steps` are modelled as `ℕ`; on the
  non-negative inputs the claims quantify over, Python `range` and slice
  semantics agree with the `List.range'`/`drop`/`take` translation used
  here.
-/

/-- One float cell of a pandas object: `none` is NaN. -/
abbrev Val := Option ℚ

/-- A pandas DataFrame: named columns, row-major values, row index. -/
structure DataFrame where
  cols : List String
  rows : List (List Val)
  idx : List Int
  deriving DecidableEq

/-- The index of a pandas Series: either a DatetimeIndex (timestamps as
integers) or any other index kind (`plain`). -/
inductive SIndex where
  | datetime (ts : List Int)
  | plain (labels : List Int)
  deriving DecidableEq

/-- An input pandas Series (possibly holding NaN). -/
structure Series where
  sidx : SIndex
  vals : List Val
  name : Option String
  deriving DecidableEq

/-- An output pandas Series of finite floats (as produced by `predict`). -/
structure SeriesQ where
  idx : List Int
  vals : List ℚ
  name : String
  deriving DecidableEq

/-- A dynamically typed Python argument, as far as the source's
`isinstance` checks discriminate it. -/
inductive PyObj where
  | df (d : DataFrame)
  | series (s : Series)
  | other

/-- Result of `predict`: a Series, or a pair `(y_pred, y_std)` when
`return_std=True`. -/
inductive PredOut where
  | single (y : SeriesQ)
  | withStd (y std : SeriesQ)
  deriving DecidableEq

/-- One constructor per `raise` site of the source file. -/
inductive Err where
  /-- fit: `X must be a pandas DataFrame` (TypeError). -/
  | typeErrX
  /-- fit: `y must be a pandas Series` (TypeError). -/
  | typeErrY
  /-- fit: `X and y must have the same length` (ValueError). -/
  | lengthMismatch
  /-- predict: `Model must be fitted before calling predict` (RuntimeError). -/
  | notFitted
  /-- predict: `X_future must be a pandas DataFrame` (TypeError). -/
  | typeErrXFuture
  /-- predict: `X_future must have the same feature columns as the training data` (ValueError). -/
  | schemaMismatch
  /-- make_lag_features: `series must be a pandas Series` (TypeError). -/
  | typeErrSeries
  /-- make_lag_features: `lags must be >= 1` (ValueError). -/
  | lagsLT1
  /-- make_lag_features line 168 / project_with_autoregression line 215:
  the series is too short for the requested lag count (ValueError,
  the spec's InsufficientData kind). -/
  | insufficientData
  /-- An error raised inside the external sklearn collaborators. -/
  | externalErr
  deriving DecidableEq

/-- Fitted `StandardScaler` parameters for a feature matrix
(per-column `mean_` and `scale_`). -/
structure ScalerParams where
  mean : List ℚ
  scale : List ℚ

/-- Fitted `StandardScaler` parameters for the single target column. -/
structure ScalerY where
  mean : ℚ
  scale : ℚ

/-- A fitted `GaussianProcessRegressor`, acting on one standardized query
row and returning `(mean, std)` or failing (sklearn raise). -/
abbrev GPRFun := List Val → Except Unit (ℚ × ℚ)

/-- The external sklearn computations the source delegates to:
`StandardScaler.fit` parameter estimation for `X` and `y`, and
`GaussianProcessRegressor(...).fit` producing a fitted predictor. -/
structure Externals where
  scalerFitX : List (List Val) → ScalerParams
  scalerFitY : List Val → ScalerY
  gprFit : List (List Val) → List Val → GPRFun

/-- `StandardScaler.transform` on one row: elementwise `(x - mean) / scale`;
NaN propagates. -/
def transformRow (p : ScalerParams) (r : List Val) : List Val :=
  List.zipWith (fun v ms => v.map (fun x => (x - ms.1) / ms.2)) r (p.mean.zip p.scale)

/-- `StandardScaler.transform` on one target value; NaN propagates. -/
def transY (p : ScalerY) (v : Val) : Val :=
  v.map (fun x => (x - p.mean) / p.scale)

/-- The mutable attributes of a `GaussianProcessProjection` instance set in
`__init__` (kernel configuration omitted: it only feeds `Externals.gprFit`).
`scalerX`/`scalerY`/`gpr` are `none` while unfitted. -/
structure GPState where
  normalizeY : Bool
  scalerX : Option ScalerParams
  scalerY : Option ScalerY
  gpr : Option GPRFun
  featureColumns : Option (List String)
  isFitted : Bool

/-- `GaussianProcessProjection.__init__`: `_scaler_y` is created only when
`normalize_y` (it stays `None` otherwise), `_gpr` and `_feature_columns`
start as `None`, `_is_fitted` as `False`.  An unfitted `StandardScaler`
holds no parameters, hence `scalerX := none` here. -/
def initState (normalizeY : Bool) : GPState :=
  { normalizeY := normalizeY, scalerX := none, scalerY := none,
    gpr := none, featureColumns := none, isFitted := false }

/-- `GaussianProcessProjection.fit` (source lines 66-101). -/
def fit (ext : Externals) (st : GPState) (X Y : PyObj) : Except Err GPState :=
  match X with
  | .df d =>
    match Y with
    | .series s =>
      if d.rows.length ≠ s.vals.length then .error .lengthMismatch
      else
        let sx := ext.scalerFitX d.rows
        let Xs := d.rows.map (transformRow sx)
        let syOpt : Option ScalerY :=
          if st.normalizeY then some (ext.scalerFitY s.vals) else st.scalerY
        let ys : List Val :=
          if st.normalizeY then s.vals.map (transY (ext.scalerFitY s.vals)) else s.vals
        let g := ext.gprFit Xs ys
        .ok { st with featureColumns := some d.cols, scalerX := some sx,
                      scalerY := syOpt, gpr := some g, isFitted := true }
    | _ => .error .typeErrY
  | _ => .error .typeErrX

/-- The value a row holds for column `c`, walking `cols` and the row in
parallel; first match wins (pandas unique-label lookup), `none` (NaN) if
`c` is absent.  Used to model `DataFrame.reindex(columns=...)`. -/
def lookupCol (cols : List String) (r : List Val) (c : String) : Val :=
  match cols, r with
  | c₂ :: cs, v :: vs => if c₂ = c then v else lookupCol cs vs c
  | _, _ => none

/-- pandas `DataFrame.reindex(columns=target)` on a duplicate-free column
axis: existing columns are selected by name, missing ones filled with NaN;
the row index is unchanged. -/
def reindexCols (d : DataFrame) (target : List String) : DataFrame :=
  { cols := target,
    rows := d.rows.map (fun r => target.map (lookupCol d.cols r)),
    idx := d.idx }

/-- Source lines 117-123: if the columns differ from the training columns,
try `reindex`; pandas raises (ValueError, caught and re-raised as the
schema error) exactly when the frame's own column axis has duplicate
labels, and otherwise fills missing columns with NaN. -/
def alignColumns (fc : List String) (d : DataFrame) : Except Err DataFrame :=
  if d.cols = fc then .ok d
  else if d.cols.Nodup then .ok (reindexCols d fc)
  else .error .schemaMismatch

/-- Package `predict`'s result (source lines 137-142). -/
def mkOut (idx : List Int) (yp ys : List ℚ) (returnStd : Bool) : PredOut :=
  if returnStd then .withStd ⟨idx, yp, "gp_projection"⟩ ⟨idx, ys, "gp_std"⟩
  else .single ⟨idx, yp, "gp_projection"⟩

/-- `GaussianProcessProjection.predict` (source lines 103-142).  The
`externalErr` cases model errors sklearn would raise (transform or predict
on an unfitted/ill-formed internal object, or the regressor rejecting its
input). -/
def predict (st : GPState) (Xf : PyObj) (returnStd : Bool) : Except Err PredOut :=
  if st.isFitted then
    match Xf with
    | .df d =>
      match st.featureColumns with
      | none => .error .externalErr
      | some fc =>
        match alignColumns fc d with
        | .error e => .error e
        | .ok d₂ =>
          match st.scalerX, st.gpr with
          | some sx, some g =>
            let scaled := d₂.rows.map (transformRow sx)
            match scaled.mapM g with
            | .error _ => .error .externalErr
            | .ok prs =>
              let means := prs.map Prod.fst
              let stds := prs.map Prod.snd
              if st.normalizeY then
                match st.scalerY with
                | none => .error .externalErr
                | some sy =>
                  .ok (mkOut d₂.idx (means.map (fun x => x * sy.scale + sy.mean))
                        (stds.map (fun x => x * sy.scale)) returnStd)
              else .ok (mkOut d₂.idx means stds returnStd)
          | _, _ => .error .externalErr
    | _ => .error .typeErrXFuture
  else .error .notFitted

/-- State-passing form of the `predict` method: the method body performs
no attribute assignment, so the post-state is the pre-state. -/
def predictS (st : GPState) (Xf : PyObj) (returnStd : Bool) :
    GPState × Except Err PredOut :=
  (st, predict st Xf returnStd)

/-- State-passing form of the `fit` method: all three validation `raise`s
precede the first attribute assignment, so a failing `fit` leaves the
instance unchanged. -/
def fitS (ext : Externals) (st : GPState) (X Y : PyObj) :
    GPState × Except Err Unit :=
  match fit ext st X Y with
  | .ok st₂ => (st₂, .ok ())
  | .error e => (st, .error e)

/-- Column names `lag1 .. lag{lags}` (`range(1, lags + 1)`). -/
def colNames (lags : ℕ) : List String :=
  (List.range' 1 lags).map (fun i => "lag" ++ toString i)

/-- Python `l[-n:]` for `n ≥ 1`: the last `n` elements (the whole list if
`n ≥ len`). -/
def lastN (n : ℕ) (l : List α) : List α :=
  l.drop (l.length - n)

/-- The future-row loop of `make_lag_features` (source lines 183-191):
each step emits the reversed window, then slides the window by dropping
the oldest value and appending the NaN placeholder. -/
def lagRows (window : List Val) : ℕ → List (List Val)
  | 0 => []
  | n + 1 => window.reverse :: lagRows (window.drop 1 ++ [none]) n

/-- pandas `date_range(start, periods=n_steps+1, freq=f)[1:]` for a
fixed-tick frequency `f`. -/
def futureDates (start : Int) (f : Int) (n_steps : ℕ) : List Int :=
  (List.range n_steps).map (fun k => start + ((k : Int) + 1) * f)

/-- `make_lag_features` (source lines 145-195).  `inferFreq` abstracts
`pd.infer_freq` with its surrounding `try/except` (`none` covers both a
`None` return and a caught exception); frequencies are fixed integer
ticks. -/
def make_lag_features (inferFreq : List Int → Option Int) (seriesObj : PyObj)
    (lags : ℕ) (n_steps : ℕ) (freq : Option Int) : Except Err DataFrame :=
  match seriesObj with
  | .series s =>
    if lags < 1 then .error .lagsLT1
    else
      let last_vals := s.vals
      if last_vals.length < lags then .error .insufficientData
      else
        let future_index : List Int :=
          match s.sidx with
          | .datetime ts =>
            match (match freq with | some f => some f | none => inferFreq ts) with
            | some f => futureDates (ts.getLastD 0) f n_steps
            | none => (List.range n_steps).map Int.ofNat
          | .plain _ => (List.range n_steps).map Int.ofNat
        .ok { cols := colNames lags,
              rows := lagRows (lastN lags last_vals) n_steps,
              idx := future_index }
  | _ => .error .typeErrSeries

/-- Supervised feature rows of `project_with_autoregression` (source lines
218-224): for `t in range(lags, len(vals))`, the reversed window
`vals[t-lags:t]`. -/
def supervisedX (vals : List Val) (lags : ℕ) : List (List Val) :=
  (List.range' lags (vals.length - lags)).map
    (fun t => ((vals.drop (t - lags)).take lags).reverse)

/-- Supervised targets: `vals[t]` for `t in range(lags, len(vals))`. -/
def supervisedY (vals : List Val) (lags : ℕ) : List Val :=
  (List.range' lags (vals.length - lags)).map (fun t => vals.getD t none)

/-- Python `a or b` on an optional string (falsy: `None` and `""`). -/
def pyOr (o : Option String) (d : String) : String :=
  match o with
  | some s => if s = "" then d else s
  | none => d

/-- The training DataFrame `X` built at source line 226 (a fresh frame gets
a RangeIndex). -/
def projX (series : Series) (lags : ℕ) : DataFrame :=
  { cols := colNames lags,
    rows := supervisedX series.vals lags,
    idx := (List.range (series.vals.length - lags)).map Int.ofNat }

/-- `series.index[lags:]`. -/
def SIndex.dropIdx (i : SIndex) (n : ℕ) : SIndex :=
  match i with
  | .datetime ts => .datetime (ts.drop n)
  | .plain ls => .plain (ls.drop n)

/-- The training Series `y` built at source line 227. -/
def projY (series : Series) (lags : ℕ) : Series :=
  { sidx := series.sidx.dropIdx lags,
    vals := supervisedY series.vals lags,
    name := some (pyOr series.name "y") }

/-- The single-row feature frame of one rollout step (source line 238):
columns are the training columns, the row is the reversed window, and a
fresh one-row frame carries RangeIndex `[0]`. -/
def rowDF (lags : ℕ) (window : List Val) : DataFrame :=
  { cols := colNames lags, rows := [window.reverse], idx := [0] }

/-- `.iloc[0]` of a predict result.  In the rollout the frame has exactly
one row, so the value series has exactly one entry and the default is
never taken. -/
def firstVal (out : PredOut) : ℚ :=
  match out with
  | .single s => s.vals.headD 0
  | .withStd s _ => s.vals.headD 0

/-- The iterative forecasting loop of `project_with_autoregression`
(source lines 236-242); a raise inside `predict` propagates. -/
def rollout (st : GPState) (lags : ℕ) : List Val → ℕ → Except Err (List ℚ)
  | _, 0 => .ok []
  | window, n + 1 =>
    match predict st (.df (rowDF lags window)) false with
    | .error e => .error e
    | .ok out =>
      let yhat := firstVal out
      match rollout st lags (window.drop 1 ++ [some yhat]) n with
      | .error e => .error e
      | .ok rest => .ok (yhat :: rest)

/-- `project_with_autoregression` (source lines 199-246), with default
`gp_kwargs` (so `normalize_y=True`). -/
def project (ext : Externals) (inferFreq : List Int → Option Int)
    (series : Series) (lags : ℕ) (n_steps : ℕ) : Except Err SeriesQ :=
  if series.vals.length ≤ lags then .error .insufficientData
  else
    match fit ext (initState true) (.df (projX series lags)) (.series (projY series lags)) with
    | .error e => .error e
    | .ok st =>
      match make_lag_features inferFreq (.series series) lags n_steps none with
      | .error e => .error e
      | .ok Xfut =>
        match rollout st lags (lastN lags series.vals) n_steps with
        | .error e => .error e
        | .ok preds =>
          .ok { idx := Xfut.idx, vals := preds, name := pyOr series.name "gp_forecast" }

/-- Claim-side point predictor: the value `predict` returns for one window
row, `0` (never used on the success path) if `predict` raises. -/
def pointOf (st : GPState) (lags : ℕ) (window : List Val) : ℚ :=
  match predict st (.df (rowDF lags window)) false with
  | .ok out => firstVal out
  | .error _ => 0

/-- Claim-side window recurrence: start from `w₀`, and at each step drop
the oldest element and append the point prediction of the current window. -/
def specWindow (P : List Val → ℚ) (w₀ : List Val) : ℕ → List Val
  | 0 => w₀
  | i + 1 => (specWindow P w₀ i).drop 1 ++ [some (P (specWindow P w₀ i))]

/-- Claim-side forecast sequence: the point prediction of the `i`-th
window. -/
def specPreds (P : List Val → ℚ) (w₀ : List Val) (i : ℕ) : ℚ :=
  P (specWindow P w₀ i)

/-! ### Concrete objects shared by the evaluation (witness) theorems -/

/-- A concrete instantiation of the external sklearn computations:
identity scaling and a regressor that always predicts mean `7`, std `1`. -/
def ext₀ : Externals :=
  { scalerFitX := fun _ => ⟨[0, 0], [1, 1]⟩,
    scalerFitY := fun _ => ⟨0, 1⟩,
    gprFit := fun _ _ => fun _ => .ok (7, 1) }

/-- A concrete frequency-inference collaborator that never detects a
frequency. -/
def inf₀ : List Int → Option Int := fun _ => none

/-- The spec's example series `[1,2,3,4,5]` on a plain integer index. -/
def s₅ : Series :=
  ⟨.plain [0, 1, 2, 3, 4], [some 1, some 2, some 3, some 4, some 5], none⟩

/-- External collaborators with identity scaling and an arbitrary fitted
regressor `g` (used to show results that hold whatever the regressor
does). -/
def extWith (g : GPRFun) : Externals :=
  { scalerFitX := fun _ => ⟨[0, 0], [1, 1]⟩,
    scalerFitY := fun _ => ⟨0, 1⟩,
    gprFit := fun _ _ => g }

/-- A concrete fitted regressor that always predicts mean `0`, std `0`. -/
def g₀ : GPRFun := fun _ => .ok (0, 0)

/-- A concrete fitted-model state with training columns `["a", "b"]`. -/
def st₆ : GPState :=
  { normalizeY := true, scalerX := some ⟨[0, 0], [1, 1]⟩, scalerY := some ⟨0, 1⟩,
    gpr := some g₀, featureColumns := some ["a", "b"], isFitted := true }

/-- A query frame whose columns `["b", "a", "c"]` are a reindexable
superset of `["a", "b"]`. -/
def d₆ : DataFrame := ⟨["b", "a", "c"], [[some 1, some 2, some 3]], [0]⟩

/-- The fitted state that `project_with_autoregression` builds internally
for `s₅` with `lags = 2` under `ext₀`. -/
def st₂ : GPState :=
  { normalizeY := true, scalerX := some ⟨[0, 0], [1, 1]⟩, scalerY := some ⟨0, 1⟩,
    gpr := some (fun _ => .ok (7, 1)), featureColumns := some (colNames 2),
    isFitted := true }

/-! ### Claim theorems -/

/-- C5: for every model instance on which `fit` has not yet succeeded
(`_is_fitted` is `False`, as it is on every freshly constructed instance)
and every input frame, `predict` raises the NotFitted error. -/
theorem c5_predict_before_fit_raises_notFitted (st : GPState) (X : PyObj) (b : Bool)
    (h : st.isFitted = false) :
    predict st X b = .error .notFitted ∧ ∀ ny, (initState ny).isFitted = false := by
  refine ⟨?_, fun ny => rfl⟩
  simp [predict, h]

/-- Witness for C5 at a freshly constructed model and an empty frame. -/
theorem c5_witness :
    predict (initState true) (.df ⟨[], [], []⟩) false = .error .notFitted ∧
      ∀ ny, (initState ny).isFitted = false :=
  c5_predict_before_fit_raises_notFitted (initState true) (.df ⟨[], [], []⟩) false rfl

/-- C7: the `predict` method body performs no attribute assignment, so in
state-passing form it returns the fitted-model state (scaler parameters,
regressor, recorded columns, fitted flag — the whole record) unchanged,
and a second call on the resulting state with the same input returns the
same output. -/
theorem c7_predict_mutates_nothing (st : GPState) (X : PyObj) (b : Bool) :
    (predictS st X b).1 = st ∧
      (predictS (predictS st X b).1 X b).2 = (predictS st X b).2 :=
  ⟨rfl, rfl⟩

/-- C9: `fit` raises TypeMismatch when `X` is not a DataFrame, or (for a
DataFrame `X`) when `y` is not a Series; it raises LengthMismatch when
both types are right but the row counts differ; and whenever `fit` raises,
the instance state — in particular the fitted flag — is unchanged. -/
theorem c9_fit_validation (ext : Externals) (st : GPState) (X Y : PyObj) :
    ((∀ d, X ≠ .df d) → fitS ext st X Y = (st, .error .typeErrX)) ∧
    (∀ d, X = .df d → (∀ s, Y ≠ .series s) → fitS ext st X Y = (st, .error .typeErrY)) ∧
    (∀ d s, X = .df d → Y = .series s → d.rows.length ≠ s.vals.length →
      fitS ext st X Y = (st, .error .lengthMismatch)) ∧
    (∀ e, (fitS ext st X Y).2 = .error e → (fitS ext st X Y).1 = st) := by
  refine ⟨?_, ?_, ?_, ?_⟩
  · intro hX
    cases X with
    | df d => exact absurd rfl (hX d)
    | series s => rfl
    | other => rfl
  · intro d hX hY
    subst hX
    cases Y with
    | df d₂ => rfl
    | series s => exact absurd rfl (hY s)
    | other => rfl
  · intro d s hX hY hlen
    subst hX; subst hY
    simp [fitS, fit, hlen]
  · intro e h
    cases X with
    | df d =>
      cases Y with
      | series s =>
        by_cases hl : d.rows.length = s.vals.length
        · simp [fitS, fit, hl] at h
        · simp [fitS, fit, hl]
      | df d₂ => rfl
      | other => rfl
    | series s => rfl
    | other => rfl

/-- Witness for C9: the three validation errors at concrete inputs. -/
theorem c9_witness :
    fitS ext₀ (initState true) .other .other = (initState true, .error .typeErrX) ∧
    fitS ext₀ (initState true) (.df ⟨["a"], [[some 1]], [0]⟩) .other =
      (initState true, .error .typeErrY) ∧
    fitS ext₀ (initState true) (.df ⟨["a"], [[some 1]], [0]⟩) (.series ⟨.plain [], [], none⟩) =
      (initState true, .error .lengthMismatch) :=
  ⟨(c9_fit_validation ext₀ (initState true) .other .other).1
      (fun _ h => PyObj.noConfusion h),
   (c9_fit_validation ext₀ (initState true) (.df ⟨["a"], [[some 1]], [0]⟩) .other).2.1
      ⟨["a"], [[some 1]], [0]⟩ rfl (fun _ h => PyObj.noConfusion h),
   (c9_fit_validation ext₀ (initState true) (.df ⟨["a"], [[some 1]], [0]⟩)
      (.series ⟨.plain [], [], none⟩)).2.2.1
      ⟨["a"], [[some 1]], [0]⟩ ⟨.plain [], [], none⟩ rfl rfl (by decide)⟩

/-- Row `t` of the supervised feature matrix is the reversed slice
`vals[t-lags:t]`. -/
theorem supervisedX_getD (vals : List Val) (lags t : ℕ) (ht1 : lags ≤ t) (ht2 : t < vals.length) :
    (supervisedX vals lags).getD (t - lags) [] = ((vals.drop (t - lags)).take lags).reverse := by
  have h : t - lags < (supervisedX vals lags).length := by
    simp [supervisedX]; omega
  rw [List.getD_eq_getElem _ _ h]
  simp only [supervisedX, List.getElem_map, List.getElem_range']
  have he : lags + 1 * (t - lags) - lags = t - lags := by omega
  rw [he]

/-- Target `t` of the supervised set is `vals[t]`. -/
theorem supervisedY_getD (vals : List Val) (lags t : ℕ) (ht1 : lags ≤ t) (ht2 : t < vals.length) :
    (supervisedY vals lags).getD (t - lags) none = vals.getD t none := by
  have h : t - lags < (supervisedY vals lags).length := by
    simp [supervisedY]; omega
  rw [List.getD_eq_getElem _ _ h]
  simp only [supervisedY, List.getElem_map, List.getElem_range']
  have he : lags + 1 * (t - lags) = t := by omega
  rw [he]

/-- The reversed window `vals[t-lags:t]` lists `vals[t-k]` for `k = 1..lags`. -/
theorem window_reverse_eq_map (vals : List Val) (lags t : ℕ)
    (ht1 : lags ≤ t) (ht2 : t < vals.length) :
    ((vals.drop (t - lags)).take lags).reverse =
      (List.range' 1 lags).map (fun k => vals.getD (t - k) none) := by
  have hlen : ((vals.drop (t - lags)).take lags).length = lags := by
    simp; omega
  apply List.ext_getElem
  · simp [hlen]
  · intro i hi1 hi2
    have hi : i < lags := by simpa [hlen] using hi2
    rw [List.getElem_reverse]
    rw [List.getElem_map, List.getElem_range']
    have hb : t - (1 + 1 * i) < vals.length := by omega
    rw [List.getD_eq_getElem _ _ hb]
    simp only [List.getElem_take, List.getElem_drop]
    congr 1
    simp only [hlen]
    omega

/-- C3: for `n > L ≥ 1` the supervised construction yields `n − L` feature
rows and targets; row `t` (for `L ≤ t < n`) has feature `lag_k = vals[t-k]`
for `k = 1..L` (most-recent-first) and target `vals[t]`; and on the spec's
example `[1,2,3,4,5]` with `lags = 2` the rows are `(2,1)→3`, `(3,2)→4`,
`(4,3)→5`. -/
theorem c3_supervised_training_set (vals : List Val) (lags : ℕ)
    (h1 : 1 ≤ lags) (h2 : lags < vals.length) :
    (supervisedX vals lags).length = vals.length - lags ∧
    (supervisedY vals lags).length = vals.length - lags ∧
    (∀ t, lags ≤ t → t < vals.length →
      (supervisedX vals lags).getD (t - lags) [] =
        (List.range' 1 lags).map (fun k => vals.getD (t - k) none) ∧
      (supervisedY vals lags).getD (t - lags) none = vals.getD t none) ∧
    (supervisedX [some 1, some 2, some 3, some 4, some 5] 2 =
        [[some 2, some 1], [some 3, some 2], [some 4, some 3]] ∧
      supervisedY [some 1, some 2, some 3, some 4, some 5] 2 =
        [some 3, some 4, some 5]) := by
  refine ⟨by simp [supervisedX], by simp [supervisedY], ?_, by decide⟩
  intro t ht1 ht2
  exact ⟨(supervisedX_getD vals lags t ht1 ht2).trans
      (window_reverse_eq_map vals lags t ht1 ht2),
    supervisedY_getD vals lags t ht1 ht2⟩

/-- Witness for C3 on the spec's example input. -/
theorem c3_witness :
    (supervisedX [some 1, some 2, some 3, some 4, some 5] 2).length = 3 ∧
    supervisedX [some 1, some 2, some 3, some 4, some 5] 2 =
      [[some 2, some 1], [some 3, some 2], [some 4, some 3]] ∧
    supervisedY [some 1, some 2, some 3, some 4, some 5] 2 =
      [some 3, some 4, some 5] := by
  have h := c3_supervised_training_set [some 1, some 2, some 3, some 4, some 5] 2
    (by decide) (by decide)
  exact ⟨h.1, h.2.2.2.1, h.2.2.2.2⟩

/-- C10: `make_lag_features` raises the insufficient-data error exactly
when `len(series) < lags`, so a series of length exactly `lags` is
accepted — strictly weaker than the supervised builder's requirement
`len(series) > lags`, which on such a series makes
`project_with_autoregression` raise InsufficientData. -/
theorem c10_make_lag_weaker_precondition (inf : List Int → Option Int)
    (s : Series) (lags n_steps : ℕ) (h1 : 1 ≤ lags) :
    (make_lag_features inf (.series s) lags n_steps none = .error .insufficientData ↔
      s.vals.length < lags) ∧
    (s.vals.length = lags →
      (∃ df, make_lag_features inf (.series s) lags n_steps none = .ok df) ∧
      ∀ ext, project ext inf s lags n_steps = .error .insufficientData) := by
  have hl : ¬ lags < 1 := by omega
  refine ⟨⟨?_, ?_⟩, ?_⟩
  · intro h
    by_contra hlen
    simp [make_lag_features, hl, hlen] at h
  · intro hlen
    simp [make_lag_features, hl, hlen]
  · intro hlen
    refine ⟨?_, ?_⟩
    · cases h : make_lag_features inf (.series s) lags n_steps none with
      | ok df => exact ⟨df, rfl⟩
      | error e =>
        simp [make_lag_features, hl, show ¬ s.vals.length < lags by omega] at h
    · intro ext
      unfold project
      rw [if_pos (by omega : s.vals.length ≤ lags)]

/-- Witness for C10: a two-element series with `lags = 2`. -/
theorem c10_witness :
    (∃ df, make_lag_features inf₀ (.series ⟨.plain [0, 1], [some 1, some 2], none⟩)
        2 3 none = .ok df) ∧
    project ext₀ inf₀ ⟨.plain [0, 1], [some 1, some 2], none⟩ 2 3 =
      .error .insufficientData := by
  have h := c10_make_lag_weaker_precondition inf₀
    ⟨.plain [0, 1], [some 1, some 2], none⟩ 2 3 (by decide)
  have h₂ := h.2 (by decide)
  exact ⟨h₂.1, h₂.2 ext₀⟩

/-- The future-row loop emits exactly `n_steps` rows. -/
theorem lagRows_length (w : List Val) (n : ℕ) : (lagRows w n).length = n := by
  induction n generalizing w with
  | zero => rfl
  | succ n ih => simp [lagRows, ih]

/-- Row `i` of the future-row loop: after `i` slides the window has lost
its `i` oldest values and gained `min i |w|` NaN placeholders at its
newest end, so the reversed (most-recent-first) row starts with the
placeholders. -/
theorem lagRows_getD (w : List Val) (hw : 1 ≤ w.length) (n i : ℕ) (hi : i < n) :
    (lagRows w n).getD i [] =
      List.replicate (min i w.length) none ++ (w.drop i).reverse := by
  induction n generalizing w i with
  | zero => omega
  | succ n ih =>
    cases i with
    | zero => simp [lagRows]
    | succ j =>
      have hw2 : 1 ≤ (w.drop 1 ++ [none]).length := by simp
      have hlen : (w.drop 1 ++ [none]).length = w.length := by simp; omega
      have h := ih (w.drop 1 ++ [none]) hw2 j (by omega)
      rw [hlen] at h
      simp only [lagRows, List.getD_cons_succ]
      rw [h]
      by_cases hj : j < w.length
      · have hdrop : (w.drop 1 ++ [none]).drop j = w.drop (1 + j) ++ [none] := by
          rw [List.drop_append_eq_append_drop, List.drop_drop]
          have hz : j - (w.drop 1).length = 0 := by simp; omega
          rw [hz, List.drop_zero]
        rw [hdrop, List.reverse_append]
        have hrev : List.reverse [(none : Val)] = [none] := rfl
        rw [hrev, ← List.append_assoc]
        have hrep : List.replicate (min j w.length) (none : Val) ++ [none] =
            List.replicate (min j w.length + 1) none := (List.replicate_succ' _ _).symm
        rw [hrep]
        have hm : min j w.length + 1 = min (j + 1) w.length := by omega
        have ha : 1 + j = j + 1 := by omega
        rw [hm, ha]
      · have hd1 : (w.drop 1 ++ [none]).drop j = [] :=
          List.drop_eq_nil_of_le (by rw [hlen]; omega)
        have hd2 : w.drop (j + 1) = [] := List.drop_eq_nil_of_le (by omega)
        have hm : min j w.length = min (j + 1) w.length := by omega
        rw [hd1, hd2, hm]

/-- C4: for a series with at least `lags` observations and `n_steps ≥ 1`,
`make_lag_features` succeeds with exactly `n_steps` rows on columns
`lag1..lag{lags}`; the first row is the last `lags` historical values
most-recent-first, and row `i` carries the NaN placeholder in its
`min i lags` most-recent lag slots (never a forecast value), the rest
being trailing historical values; the index continues the inferred
frequency when the series has a DatetimeIndex with a detectable
frequency, and is the 0-based counter `0..n_steps-1` otherwise. -/
theorem c4_make_lag_future_rows (inf : List Int → Option Int) (s : Series)
    (lags n_steps : ℕ) (h1 : 1 ≤ lags) (h2 : lags ≤ s.vals.length) (h3 : 1 ≤ n_steps) :
    ∃ df, make_lag_features inf (.series s) lags n_steps none = .ok df ∧
      df.rows.length = n_steps ∧
      df.cols = colNames lags ∧
      df.rows.getD 0 [] = (lastN lags s.vals).reverse ∧
      (∀ i, i < n_steps →
        df.rows.getD i [] =
          List.replicate (min i lags) none ++ ((lastN lags s.vals).drop i).reverse) ∧
      (∀ ts f, s.sidx = .datetime ts → inf ts = some f →
        df.idx = futureDates (ts.getLastD 0) f n_steps) ∧
      (∀ ts, s.sidx = .datetime ts → inf ts = none →
        df.idx = (List.range n_steps).map Int.ofNat) ∧
      (∀ ls, s.sidx = .plain ls → df.idx = (List.range n_steps).map Int.ofNat) := by
  have hwlen : (lastN lags s.vals).length = lags := by
    simp [lastN]; omega
  have hw1 : 1 ≤ (lastN lags s.vals).length := by omega
  have hml : make_lag_features inf (.series s) lags n_steps none =
      .ok { cols := colNames lags,
            rows := lagRows (lastN lags s.vals) n_steps,
            idx := match s.sidx with
                   | .datetime ts =>
                     match inf ts with
                     | some f => futureDates (ts.getLastD 0) f n_steps
                     | none => (List.range n_steps).map Int.ofNat
                   | .plain _ => (List.range n_steps).map Int.ofNat } := by
    simp [make_lag_features, show ¬ lags < 1 by omega,
      show ¬ s.vals.length < lags by omega]
  refine ⟨_, hml, lagRows_length _ _, rfl, ?_, ?_, ?_, ?_, ?_⟩
  · have h := lagRows_getD (lastN lags s.vals) hw1 n_steps 0 (by omega)
    rw [h, hwlen]
    simp
  · intro i hi
    have h := lagRows_getD (lastN lags s.vals) hw1 n_steps i hi
    rw [h, hwlen]
  · intro ts f hsidx hinf
    simp only [hsidx, hinf]
  · intro ts hsidx hinf
    simp only [hsidx, hinf]
  · intro ls hsidx
    simp only [hsidx]

/-- Witness for C4 at the example series, `lags = 2`, `n_steps = 3`. -/
theorem c4_witness :
    (DataFrame.mk ["lag1", "lag2"]
        [[some 5, some 4], [none, some 5], [none, none]] [0, 1, 2]).rows.length = 3 ∧
    (DataFrame.mk ["lag1", "lag2"]
        [[some 5, some 4], [none, some 5], [none, none]] [0, 1, 2]).cols = colNames 2 ∧
    (DataFrame.mk ["lag1", "lag2"]
        [[some 5, some 4], [none, some 5], [none, none]] [0, 1, 2]).rows.getD 0 [] =
      (lastN 2 s₅.vals).reverse := by
  obtain ⟨df, hml, hlen, hcols, hrow0, -, -, -, -⟩ :=
    c4_make_lag_future_rows inf₀ s₅ 2 3 (by decide) (by decide) (by decide)
  have hdf : df = DataFrame.mk ["lag1", "lag2"]
      [[some 5, some 4], [none, some 5], [none, none]] [0, 1, 2] := by
    have h := hml.symm.trans
      (rfl : make_lag_features inf₀ (.series s₅) 2 3 none =
        .ok (DataFrame.mk ["lag1", "lag2"]
          [[some 5, some 4], [none, some 5], [none, none]] [0, 1, 2]))
    exact Except.ok.inj h
  exact ⟨hdf ▸ hlen, hdf ▸ hcols, hdf ▸ hrow0⟩

/-- The only error `alignColumns` itself raises is the schema error. -/
theorem alignColumns_error (fc : List String) (d : DataFrame) (e : Err)
    (h : alignColumns fc d = .error e) : e = .schemaMismatch := by
  unfold alignColumns at h
  split at h
  · simp at h
  · split at h
    · simp at h
    · exact (Except.error.inj h).symm

/-- `predict` never raises the insufficient-data error. -/
theorem predict_ne_insufficient (st : GPState) (Xf : PyObj) (b : Bool) :
    predict st Xf b ≠ .error .insufficientData := by
  intro h
  unfold predict at h
  split at h
  · split at h
    · split at h
      · simp at h
      · split at h
        · rename_i e heq
          rw [alignColumns_error _ _ _ heq] at h
          simp at h
        · split at h
          · split at h
            · split at h
              · simp only [] at h
                split at h <;> simp at h
              · simp only [] at h
                split at h <;> simp at h
            · simp only [] at h
              split at h <;> simp at h
          · simp at h
    · simp at h
  · simp at h

/-- The rollout loop only propagates `predict` errors, so it never raises
the insufficient-data error either. -/
theorem rollout_ne_insufficient (st : GPState) (lags : ℕ) (w : List Val) (n : ℕ) :
    rollout st lags w n ≠ .error .insufficientData := by
  induction n generalizing w with
  | zero => simp [rollout]
  | succ n ih =>
    intro h
    unfold rollout at h
    cases hp : predict st (.df (rowDF lags w)) false with
    | error e =>
      rw [hp] at h
      simp at h
      exact predict_ne_insufficient st (.df (rowDF lags w)) false (by rw [hp, h])
    | ok out =>
      rw [hp] at h
      simp only at h
      cases hr : rollout st lags (w.drop 1 ++ [some (firstVal out)]) n with
      | error e =>
        rw [hr] at h
        simp at h
        exact ih _ (by rw [hr, h])
      | ok rest => rw [hr] at h; simp at h

/-- On the supervised training set built from a series longer than `lags`,
`fit` succeeds and produces exactly this fitted state. -/
theorem fit_project_eq (ext : Externals) (series : Series) (lags : ℕ)
    (h2 : lags < series.vals.length) :
    fit ext (initState true) (.df (projX series lags)) (.series (projY series lags)) =
      .ok { normalizeY := true,
            scalerX := some (ext.scalerFitX (projX series lags).rows),
            scalerY := some (ext.scalerFitY (projY series lags).vals),
            gpr := some (ext.gprFit
              ((projX series lags).rows.map
                (transformRow (ext.scalerFitX (projX series lags).rows)))
              ((projY series lags).vals.map
                (transY (ext.scalerFitY (projY series lags).vals)))),
            featureColumns := some (colNames lags),
            isFitted := true } := by
  have hlen : (supervisedX series.vals lags).length = (supervisedY series.vals lags).length := by
    simp [supervisedX, supervisedY]
  simp [fit, initState, projX, projY, hlen]

/-- The errors `make_lag_features` itself can raise on a Series argument,
with the condition under which each fires. -/
theorem make_lag_error_cases (inf : List Int → Option Int) (s : Series)
    (lags n_steps : ℕ) (fr : Option Int) (e : Err)
    (h : make_lag_features inf (.series s) lags n_steps fr = .error e) :
    (e = .lagsLT1 ∧ lags < 1) ∨ (e = .insufficientData ∧ s.vals.length < lags) := by
  simp only [make_lag_features] at h
  split at h
  · rename_i hlt
    exact Or.inl ⟨(Except.error.inj h).symm, hlt⟩
  · split at h
    · rename_i hlt2
      exact Or.inr ⟨(Except.error.inj h).symm, hlt2⟩
    · simp at h

/-- C8: `project_with_autoregression` raises InsufficientData exactly when
`len(series) ≤ lags`; the check precedes all other work, so on that error
the result does not depend on the external fitting collaborators at all
(no fitting happens) and no partial result is returned. -/
theorem c8_insufficient_iff (ext : Externals) (inf : List Int → Option Int)
    (series : Series) (lags n_steps : ℕ) :
    (project ext inf series lags n_steps = .error .insufficientData ↔
      series.vals.length ≤ lags) ∧
    (series.vals.length ≤ lags →
      ∀ ext₂ inf₂, project ext₂ inf₂ series lags n_steps = .error .insufficientData) := by
  have hback : ∀ (e : Externals) (i : List Int → Option Int),
      series.vals.length ≤ lags →
      project e i series lags n_steps = .error .insufficientData := by
    intro e i hle
    unfold project
    rw [if_pos hle]
  refine ⟨⟨?_, hback ext inf⟩, fun hle e i => hback e i hle⟩
  intro h
  by_contra hlen
  push_neg at hlen
  unfold project at h
  rw [if_neg (by omega)] at h
  rw [fit_project_eq ext series lags hlen] at h
  simp only at h
  cases hml : make_lag_features inf (.series series) lags n_steps none with
  | error e =>
    rw [hml] at h
    simp at h
    rcases make_lag_error_cases inf series lags n_steps none e hml with ⟨he, _⟩ | ⟨_, hlt⟩
    · rw [he] at h
      simp at h
    · omega
  | ok Xfut =>
    rw [hml] at h
    simp only at h
    cases hr : rollout _ lags (lastN lags series.vals) n_steps with
    | error e =>
      rw [hr] at h
      simp at h
      exact rollout_ne_insufficient _ lags (lastN lags series.vals) n_steps (by rw [hr, h])
    | ok preds => rw [hr] at h; simp at h

/-- Witness for C8 at a short series (length 2, `lags = 5`) and a long
series (length 5, `lags = 2`). -/
theorem c8_witness :
    (project ext₀ inf₀ ⟨.plain [0, 1], [some 1, some 2], none⟩ 5 3 =
        .error .insufficientData ↔
      (⟨.plain [0, 1], [some 1, some 2], none⟩ : Series).vals.length ≤ 5) ∧
    (project ext₀ inf₀ s₅ 2 3 = .error .insufficientData ↔ s₅.vals.length ≤ 2) := by
  exact ⟨(c8_insufficient_iff ext₀ inf₀ ⟨.plain [0, 1], [some 1, some 2], none⟩ 5 3).1,
    (c8_insufficient_iff ext₀ inf₀ s₅ 2 3).1⟩

/-- Looking every column of a duplicate-free frame up in its own row
reproduces the row. -/
theorem lookupCol_self (cols : List String) (r : List Val)
    (hnd : cols.Nodup) (hlen : r.length = cols.length) :
    cols.map (lookupCol cols r) = r := by
  induction cols generalizing r with
  | nil =>
    cases r with
    | nil => rfl
    | cons v vs => simp at hlen
  | cons c cs ih =>
    cases r with
    | nil => simp at hlen
    | cons v vs =>
      simp only [List.map_cons, List.cons.injEq]
      refine ⟨by simp [lookupCol], ?_⟩
      have hcs : cs.map (lookupCol (c :: cs) (v :: vs)) = cs.map (lookupCol cs vs) := by
        apply List.map_congr_left
        intro c₂ hc₂
        have hne : ¬ c = c₂ := by
          intro hcontra
          exact (List.nodup_cons.mp hnd).1 (hcontra ▸ hc₂)
        simp [lookupCol, hne]
      rw [hcs]
      exact ih vs (List.nodup_cons.mp hnd).2 (by simpa using hlen)

/-- Reindexing a rectangular duplicate-free frame to its own columns is
the identity. -/
theorem reindexCols_self (d : DataFrame) (hnd : d.cols.Nodup)
    (hwf : ∀ r ∈ d.rows, r.length = d.cols.length) :
    reindexCols d d.cols = d := by
  unfold reindexCols
  cases d with
  | mk cols rows idx =>
    simp only [DataFrame.mk.injEq]
    refine ⟨trivial, ?_, trivial⟩
    have hmap : rows.map (fun r => cols.map (lookupCol cols r)) = rows.map id := by
      apply List.map_congr_left
      intro r hr
      exact lookupCol_self cols r hnd (hwf r hr)
    rw [hmap, List.map_id]

/-- A pointwise-successful regressor succeeds on any row list. -/
theorem mapM_ok_of_all (g : GPRFun) (l : List (List Val))
    (hg : ∀ row, ∃ p, g row = Except.ok p) :
    ∃ prs, l.mapM g = Except.ok prs := by
  induction l with
  | nil => exact ⟨[], rfl⟩
  | cons r rs ih =>
    obtain ⟨p, hp⟩ := hg r
    obtain ⟨prs, hprs⟩ := ih
    refine ⟨p :: prs, ?_⟩
    rw [List.mapM_cons, hp, hprs]
    rfl

/-- On a query frame with duplicate-free columns, `predict` cannot raise
the schema error: pandas `reindex` silently fills missing columns. -/
theorem predict_ne_schema_of_nodup (st : GPState) (d : DataFrame) (b : Bool)
    (hnd : d.cols.Nodup) :
    predict st (.df d) b ≠ .error .schemaMismatch := by
  intro h
  unfold predict at h
  split at h
  · split at h
    · rename_i d₂ heqd
      injection heqd with heqd
      subst heqd
      split at h
      · simp at h
      · split at h
        · rename_i fc hfcx xa e heq
          unfold alignColumns at heq
          by_cases hceq : d.cols = fc
          · rw [if_pos hceq] at heq
            exact Except.noConfusion heq
          · rw [if_neg hceq, if_pos hnd] at heq
            exact Except.noConfusion heq
        · split at h
          · split at h
            · split at h
              · simp only [] at h
                split at h <;> simp at h
              · simp only [] at h
                split at h <;> simp at h
            · simp only [] at h
              split at h <;> simp at h
          · simp at h
    · rename_i hcon
      exact hcon d rfl
  · simp at h

/-- C6: on a fitted model, `predict` on a frame whose duplicate-free
columns cover the training columns (a permutation or a reindexable
superset) equals `predict` on the manually reindexed frame, and it
succeeds whenever the external regressor succeeds pointwise and the
fitted state holds its scaler parameters. -/
theorem c6_predict_reindex_equiv (st : GPState) (fc : List String) (d : DataFrame) (b : Bool)
    (hf : st.isFitted = true) (hfc : st.featureColumns = some fc)
    (hnd : d.cols.Nodup) (hsub : ∀ c ∈ fc, c ∈ d.cols)
    (hwf : ∀ r ∈ d.rows, r.length = d.cols.length) :
    predict st (.df d) b = predict st (.df (reindexCols d fc)) b ∧
    (∀ g sx, st.gpr = some g → st.scalerX = some sx →
      (∀ row, ∃ p, g row = Except.ok p) →
      (st.normalizeY = true → ∃ sy, st.scalerY = some sy) →
      ∃ out, predict st (.df d) b = Except.ok out) := by
  have halign : alignColumns fc d = .ok (reindexCols d fc) := by
    unfold alignColumns
    by_cases heq : d.cols = fc
    · rw [if_pos heq, ← heq, reindexCols_self d hnd hwf]
    · rw [if_neg heq, if_pos hnd]
  have halign₂ : alignColumns fc (reindexCols d fc) = .ok (reindexCols d fc) := by
    unfold alignColumns
    have hcols : (reindexCols d fc).cols = fc := rfl
    rw [if_pos hcols]
  constructor
  · simp only [predict, hf, hfc, if_true]
    rw [halign, halign₂]
  · intro g sx hg hsx hgok hsy
    simp only [predict, hf, hfc, if_true]
    rw [halign]
    simp only [hsx, hg]
    obtain ⟨prs, hprs⟩ :=
      mapM_ok_of_all g ((reindexCols d fc).rows.map (transformRow sx)) hgok
    rw [hprs]
    by_cases hny : st.normalizeY
    · obtain ⟨sy, hs⟩ := hsy hny
      simp [hny, hs]
    · simp [hny]

/-- Witness for C6: a three-column frame reindexed to two training
columns. -/
theorem c6_witness :
    predict st₆ (.df d₆) false = predict st₆ (.df (reindexCols d₆ ["a", "b"])) false ∧
      predict st₆ (.df d₆) false ≠ .error .schemaMismatch := by
  have h := c6_predict_reindex_equiv st₆ ["a", "b"] d₆ false rfl rfl
    (by decide) (by decide) (by decide)
  refine ⟨h.1, ?_⟩
  obtain ⟨out, hout⟩ := h.2 g₀ ⟨[0, 0], [1, 1]⟩ rfl rfl
    (fun row => ⟨(0, 0), rfl⟩) (fun _ => ⟨⟨0, 1⟩, rfl⟩)
  rw [hout]
  simp

/-- C1: refuted — pandas `reindex(columns=...)` does not raise on missing
columns; it silently inserts NaN-filled columns.  For a fitted model with
columns `lag1, lag2` and a query frame holding only `lag1`, the alignment
step succeeds with a NaN `lag2` column, `predict` does not raise the
schema error whatever the external regressor does, and with a benign
regressor it even returns a result.  The try/except around `reindex` shows
the source intends to reject missing columns, so this is a slip in the
code, not in the claim's intent. -/
theorem c1_missing_column_no_schema_error :
    (∀ g : GPRFun,
      ∃ st, fit (extWith g) (initState true)
          (.df ⟨["lag1", "lag2"], [[some 1, some 2], [some 3, some 4]], [0, 1]⟩)
          (.series ⟨.plain [0, 1], [some 5, some 6], none⟩) = .ok st ∧
        st.isFitted = true ∧
        st.featureColumns = some ["lag1", "lag2"] ∧
        alignColumns ["lag1", "lag2"] ⟨["lag1"], [[some 9]], [0]⟩ =
          .ok ⟨["lag1", "lag2"], [[some 9, none]], [0]⟩ ∧
        predict st (.df ⟨["lag1"], [[some 9]], [0]⟩) false ≠ .error .schemaMismatch) ∧
    predict { normalizeY := true, scalerX := some ⟨[0, 0], [1, 1]⟩,
              scalerY := some ⟨0, 1⟩, gpr := some g₀,
              featureColumns := some ["lag1", "lag2"], isFitted := true }
        (.df ⟨["lag1"], [[some 9]], [0]⟩) false =
      .ok (.single ⟨[0], [0], "gp_projection"⟩) := by
  constructor
  · intro g
    refine ⟨_, rfl, rfl, rfl, rfl, ?_⟩
    exact predict_ne_schema_of_nodup _ _ false (by decide)
  · simp [predict, alignColumns, reindexCols, lookupCol, transformRow, mkOut, g₀,
      List.mapM, List.mapM.loop]

/-- The claim-side window recurrence can be restarted after one slide. -/
theorem specWindow_shift (P : List Val → ℚ) (w : List Val) (i : ℕ) :
    specWindow P w (i + 1) = specWindow P (w.drop 1 ++ [some (P w)]) i := by
  induction i generalizing w with
  | zero => rfl
  | succ i ih =>
    calc specWindow P w (i + 1 + 1)
        = (specWindow P w (i + 1)).drop 1 ++ [some (P (specWindow P w (i + 1)))] := rfl
      _ = (specWindow P (w.drop 1 ++ [some (P w)]) i).drop 1 ++
            [some (P (specWindow P (w.drop 1 ++ [some (P w)]) i))] := by rw [ih]
      _ = specWindow P (w.drop 1 ++ [some (P w)]) (i + 1) := rfl

/-- A successful rollout returns exactly `n` predictions, and prediction
`i` is the point prediction of the `i`-th window of the claim-side
recurrence (initial window, then drop-oldest/append-prediction). -/
theorem rollout_spec (st : GPState) (lags : ℕ) (w : List Val) (n : ℕ) (ps : List ℚ)
    (h : rollout st lags w n = .ok ps) :
    ps.length = n ∧
      ∀ i, i < n → ps.getD i 0 = specPreds (pointOf st lags) w i := by
  induction n generalizing w ps with
  | zero =>
    simp [rollout] at h
    subst h
    exact ⟨rfl, fun i hi => absurd hi (by omega)⟩
  | succ n ih =>
    unfold rollout at h
    cases hp : predict st (.df (rowDF lags w)) false with
    | error e => rw [hp] at h; simp at h
    | ok out =>
      rw [hp] at h
      simp only [] at h
      cases hr : rollout st lags (w.drop 1 ++ [some (firstVal out)]) n with
      | error e => rw [hr] at h; simp at h
      | ok rest =>
        rw [hr] at h
        simp only [] at h
        have hps : ps = firstVal out :: rest := (Except.ok.inj h).symm
        subst hps
        have hpt : firstVal out = pointOf st lags w := by
          unfold pointOf
          rw [hp]
        obtain ⟨hlen, hrest⟩ := ih _ rest hr
        refine ⟨by simp [hlen], ?_⟩
        intro i hi
        cases i with
        | zero =>
          simp only [List.getD_cons_zero]
          rw [hpt]
          rfl
        | succ j =>
          simp only [List.getD_cons_succ]
          rw [hrest j (by omega), hpt]
          unfold specPreds
          rw [specWindow_shift]

/-- C2: for `len(series) > lags ≥ 1`, when `project_with_autoregression`
returns a forecast it has exactly `n_steps` entries; entry `i` is the
fitted model's point prediction on the `i`-th window of the recurrence
that starts from the last `lags` observed values (most-recent-first when
a feature row is formed, which `rowDF`/`pointOf` encode) and slides by
dropping the oldest element and appending the previous prediction; and
the forecast carries the index produced by
`make_lag_features(series, lags, n_steps)`. -/
theorem c2_autoregressive_rollout (ext : Externals) (inf : List Int → Option Int)
    (series : Series) (lags n_steps : ℕ) (st : GPState) (r : SeriesQ)
    (h1 : 1 ≤ lags) (h2 : lags < series.vals.length)
    (hst : fit ext (initState true) (.df (projX series lags))
      (.series (projY series lags)) = .ok st)
    (hr : project ext inf series lags n_steps = .ok r) :
    r.vals.length = n_steps ∧
      (∀ i, i < n_steps →
        r.vals.getD i 0 = specPreds (pointOf st lags) (lastN lags series.vals) i) ∧
      ∃ df, make_lag_features inf (.series series) lags n_steps none = .ok df ∧
        r.idx = df.idx := by
  unfold project at hr
  rw [if_neg (by omega)] at hr
  rw [hst] at hr
  simp only [] at hr
  cases hml : make_lag_features inf (.series series) lags n_steps none with
  | error e => rw [hml] at hr; simp at hr
  | ok Xfut =>
    rw [hml] at hr
    simp only [] at hr
    cases hro : rollout st lags (lastN lags series.vals) n_steps with
    | error e => rw [hro] at hr; simp at hr
    | ok preds =>
      rw [hro] at hr
      simp only [] at hr
      have hrv : r = ⟨Xfut.idx, preds, pyOr series.name "gp_forecast"⟩ :=
        (Except.ok.inj hr).symm
      subst hrv
      obtain ⟨hlen, hspec⟩ := rollout_spec st lags (lastN lags series.vals) n_steps preds hro
      exact ⟨hlen, hspec, ⟨Xfut, rfl, rfl⟩⟩

/-- Witness for C2: the example series with `lags = 2`, `n_steps = 2`
under the concrete externals (regressor constantly predicting 7). -/
theorem c2_witness :
    (SeriesQ.mk [0, 1] [7, 7] "gp_forecast").vals.length = 2 ∧
    (SeriesQ.mk [0, 1] [7, 7] "gp_forecast").vals.getD 0 0 =
      specPreds (pointOf st₂ 2) (lastN 2 s₅.vals) 0 ∧
    (SeriesQ.mk [0, 1] [7, 7] "gp_forecast").vals.getD 1 0 =
      specPreds (pointOf st₂ 2) (lastN 2 s₅.vals) 1 := by
  have hst : fit ext₀ (initState true) (.df (projX s₅ 2)) (.series (projY s₅ 2)) =
      .ok st₂ := by
    rw [fit_project_eq ext₀ s₅ 2 (by norm_num [s₅])]
    rfl
  have hpr : project ext₀ inf₀ s₅ 2 2 =
      .ok (SeriesQ.mk [0, 1] [7, 7] "gp_forecast") := by
    norm_num [project, ext₀, inf₀, s₅, projX, projY, supervisedX, supervisedY, colNames,
      fit, initState, transformRow, transY, make_lag_features, lastN, lagRows, futureDates,
      rollout, predict, alignColumns, reindexCols, lookupCol, mkOut, firstVal, rowDF, pyOr,
      List.mapM, List.mapM.loop, List.range', specWindow]
    decide
  have h := c2_autoregressive_rollout ext₀ inf₀ s₅ 2 2 st₂
    (SeriesQ.mk [0, 1] [7, 7] "gp_forecast")
    (by decide) (by decide) hst hpr
  exact ⟨h.1, h.2.1 0 (by decide), h.2.1 1 (by decide)⟩
